import Mathlib

set_option maxRecDepth 100000

/-!
Shallow embedding of `src/api/index.py` (MCQ generator service).

The Python program chunks input text, calls a hosted generation service per
chunk with bounded retries, parses the (possibly fenced) JSON response, and
aggregates the records into a spreadsheet table behind two Flask routes.

External effects are modelled as explicit oracle parameters:
- `loads : String → Option JValue` models `json.loads` (`none` = the call
  raises `JSONDecodeError`);
- `resp : Nat → Option String` (per attempt) and
  `api : Nat → Nat → Option String` (per chunk, per attempt) model the
  generation-service call: `none` means the call (or reading `response.text`)
  raised, `some raw` is the raw response text of that attempt;
- `fitzResult : Option String` models the body of `extract_text_from_pdf`'s
  `try` block: `none` means `fitz` raised, `some t` is the concatenated text;
- `secure : String → String` models `werkzeug.utils.secure_filename`.

Python exceptions escaping a handler are the `Outcome.exn` constructor;
machine-irrelevant payloads (spreadsheet bytes) are kept as the structured
table that `to_excel` would serialize.
-/

/-- JSON values as produced by the `json` library. -/
inductive JValue where
  | jnull
  | jbool (b : Bool)
  | jnum (n : Int)
  | jstr (s : String)
  | jarr (elts : List JValue)
  | jobj (fields : List (String × JValue))

/-- Python `str` whitespace (the characters stripped by `str.strip()` and
matched by the regex class `\s` for ASCII input). -/
def isPySpace (c : Char) : Bool :=
  c = ' ' || c = '\t' || c = '\n' || c = '\r' || c = '\x0b' || c = '\x0c'

/-- Python `str.strip()` on line 67: `response.text.strip()`. -/
def pyStrip (s : String) : String :=
  String.mk (((s.data.dropWhile isPySpace).reverse.dropWhile isPySpace).reverse)

/-- The literal head of the pattern `r'```json\s*(\[.*?\])\s*```'`. -/
def fenceTag : List Char := "```json".data

/-- The closing fence of the pattern. -/
def fenceClose : List Char := "```".data

/-- After the candidate closing bracket: `\s*` then the closing fence.
Greedy whitespace skipping is deterministic here because `\s` and a backtick
are disjoint character classes. -/
def closesAfter (cs : List Char) : Bool :=
  fenceClose.isPrefixOf (cs.dropWhile isPySpace)

/-- The lazy `.*?` (with `re.DOTALL`) between the brackets: scan left to
right and stop at the first `]` whose suffix matches `\s*` followed by the
closing fence. Returns the characters strictly between the brackets. -/
def findBody : List Char → List Char → Option (List Char)
  | _, [] => none
  | acc, c :: rest =>
    if c = ']' && closesAfter rest then some acc.reverse
    else findBody (c :: acc) rest

/-- Try to match the whole pattern `` ```json\s*(\[.*?\])\s*``` `` starting at
this position; on success return the text of group 1 (brackets included).
The `\s*` before `[` is deterministic because `\s` and `[` are disjoint. -/
def matchFrom (cs : List Char) : Option (List Char) :=
  if fenceTag.isPrefixOf cs then
    match (cs.drop fenceTag.length).dropWhile isPySpace with
    | '[' :: rest => (findBody [] rest).map (fun body => '[' :: (body ++ [']']))
    | _ => none
  else none

/-- `re.search`: the match at the leftmost starting position wins. -/
def searchFence : List Char → Option (List Char)
  | [] => none
  | c :: rest =>
    match matchFrom (c :: rest) with
    | some g => some g
    | none => searchFence rest

/-- Line 73: `extracted_data if isinstance(extracted_data, list) else []`. -/
def listFromJson (v : JValue) : List JValue :=
  match v with
  | .jarr xs => xs
  | _ => []

/-- Lines 67-73 of `call_gemini_api`, for one raw response string: strip,
extract the fenced array if the pattern matches (else take the whole raw
text), `json.loads` it, coerce a non-list value to `[]`. `none` means
`json.loads` raised, which the surrounding `except` turns into a retry. -/
def attemptResult (loads : String → Option JValue) (raw : String) :
    Option (List JValue) :=
  let rawText := pyStrip raw
  let jsonStr := match searchFence rawText.data with
    | some g => String.mk g
    | none => rawText
  match loads jsonStr with
  | none => none
  | some v => some (listFromJson v)

/-- One iteration of the retry loop body: `none` when anything in the `try`
block raised (network call, response access, or JSON decoding). -/
def attemptOutcome (loads : String → Option JValue)
    (resp : Nat → Option String) (i : Nat) : Option (List JValue) :=
  match resp i with
  | none => none
  | some raw => attemptResult loads raw

/-- Line 56: `retries = 3`. -/
def retries : Nat := 3

/-- The loop `for i in range(retries)` of `call_gemini_api`, from attempt
index `i` with `fuel` iterations left: a successful attempt returns its
value; a failed final attempt (and the fall-through) returns `[]`. -/
def callFrom (loads : String → Option JValue) (resp : Nat → Option String) :
    Nat → Nat → List JValue
  | _, 0 => []
  | i, fuel + 1 =>
    match attemptOutcome loads resp i with
    | some xs => xs
    | none => callFrom loads resp (i + 1) fuel

/-- `call_gemini_api` (lines 53-79), with the service and `json.loads`
modelled as oracles. -/
def call_gemini_api (loads : String → Option JValue)
    (resp : Nat → Option String) : List JValue :=
  callFrom loads resp 0 retries

/-- Number of loop iterations (service calls) `call_gemini_api` executes. -/
def attemptsFrom (loads : String → Option JValue)
    (resp : Nat → Option String) : Nat → Nat → Nat
  | _, 0 => 0
  | i, fuel + 1 =>
    match attemptOutcome loads resp i with
    | some _ => 1
    | none => 1 + attemptsFrom loads resp (i + 1) fuel

/-- Attempts actually made by `call_gemini_api` for one chunk. -/
def attemptsUsed (loads : String → Option JValue)
    (resp : Nat → Option String) : Nat :=
  attemptsFrom loads resp 0 retries

/-- Line 83: `chunk_size = 3000`. -/
def chunk_size : Nat := 3000

/-- Fuel-indexed version of the slicing loop
`for i in range(0, text_len, chunk_size): chunk = full_text[i:i+chunk_size]`;
any fuel at least the text length is enough since each step drops at least
one character. -/
def chunksGo : Nat → List Char → List (List Char)
  | 0, _ => []
  | _ + 1, [] => []
  | fuel + 1, c :: rest =>
    ((c :: rest).take chunk_size) :: chunksGo fuel ((c :: rest).drop chunk_size)

/-- The chunk sequence of lines 90-91: consecutive slices of length
`chunk_size` in left-to-right order, last one possibly shorter; an empty
text yields no chunks (`range(0, 0, 3000)` is empty). -/
def chunks (text : List Char) : List (List Char) :=
  chunksGo text.length text

/-- Lines 102-105: the fixed base column list. -/
def base_column_order : List String :=
  ["question", "option_a", "option_b", "option_c", "option_d",
   "correct_answer", "explanation", "topic", "chapter", "subject"]

/-- Python `list.remove`: removes the first occurrence, raises `ValueError`
(modelled as `none`) when the element is absent. -/
def pyListRemove (l : List String) (x : String) : Option (List String) :=
  if x ∈ l then some (l.erase x) else none

/-- Lines 102-109: the column order after the `num_options` branch.
`insert(4, ...)` for 5 options, `remove("option_e")` otherwise. -/
def mkColumnOrder (num_options : Int) : Option (List String) :=
  if num_options = 5 then some (base_column_order.insertIdx 4 "option_e")
  else pyListRemove base_column_order "option_e"

/-- Keys of one JSON record, in order; `pd.DataFrame` treats array elements
as dict-like rows (the operative case of this program). -/
def recordKeys (v : JValue) : List String :=
  match v with
  | .jobj fields => fields.map Prod.fst
  | _ => []

/-- `pd.DataFrame(all_data).columns`: the union of the record keys in order
of first appearance across rows. -/
def dfColumns (rows : List JValue) : List String :=
  rows.foldl
    (fun acc r =>
      (recordKeys r).foldl (fun a k => if k ∈ a then a else a ++ [k]) acc)
    []

/-- A spreadsheet cell: the inserted sequence number, a record value, or the
NaN a missing key becomes. -/
inductive Cell where
  | num (n : Nat)
  | val (v : JValue)
  | nan

/-- The data frame written by `to_excel`: a header row and the data rows. -/
structure Table where
  header : List String
  rows : List (List Cell)

/-- Dict lookup on a record row; non-dict rows have no fields. -/
def lookupField (v : JValue) (key : String) : Option JValue :=
  match v with
  | .jobj fields => fields.lookup key
  | _ => none

/-- Lines 111-113: keep the columns of `column_order` that exist in the
frame, in that order, and insert the 1-based `S.No` column at position 0. -/
def mkTable (order : List String) (all_data : List JValue) : Table :=
  let existing := order.filter (fun c => decide (c ∈ dfColumns all_data))
  { header := "S.No" :: existing,
    rows := all_data.enum.map (fun p =>
      Cell.num (p.1 + 1) :: existing.map (fun c =>
        match lookupField p.2 c with
        | some v => Cell.val v
        | none => Cell.nan)) }

/-- Line 97: the message returned when no chunk yielded data. -/
def noDataMsg : String := "No data was generated from the provided text."

/-- Line 123 with the `ValueError` CPython raises for
`column_order.remove("option_e")` when `"option_e"` is not in the list. -/
def excelErrMsg : String :=
  "An error occurred while creating the Excel file: list.remove(x): x not in list"

/-- Lines 99-123, the `try` block building the frame: the `remove` on a list
without `"option_e"` raises, is caught, and becomes the error string;
otherwise the pruned, numbered table is produced. -/
def buildExcel (num_options : Int) (all_data : List JValue) :
    Except String Table :=
  match mkColumnOrder num_options with
  | none => .error excelErrMsg
  | some order => .ok (mkTable order all_data)

/-- The records one chunk (by position) contributes. -/
def perChunkRecords (loads : String → Option JValue)
    (api : Nat → Nat → Option String) (k : Nat) : List JValue :=
  call_gemini_api loads (api k)

/-- Lines 90-94: `all_data` after the chunk loop (the `if chunk_data:` guard
before `extend` is a no-op). The oracle is indexed by chunk position. -/
def allData (loads : String → Option JValue)
    (api : Nat → Nat → Option String) (full_text : String) : List JValue :=
  ((List.range (chunks full_text.data).length).map
    (perChunkRecords loads api)).flatten

/-- `process_text_and_create_excel` (lines 81-123), up to the structured
table handed to the (external) spreadsheet writer. -/
def process_text_and_create_excel (loads : String → Option JValue)
    (api : Nat → Nat → Option String) (full_text : String)
    (num_options : Int) : Except String Table :=
  if (allData loads api full_text).isEmpty then .error noDataMsg
  else buildExcel num_options (allData loads api full_text)

/-- Total generation-service calls made while processing a text. -/
def totalCalls (loads : String → Option JValue)
    (api : Nat → Nat → Option String) (full_text : String) : Nat :=
  ((List.range (chunks full_text.data).length).map
    (fun k => attemptsUsed loads (api k))).sum

/-- One base-10 digit of Python `int()`. -/
def digitVal (c : Char) : Option Nat :=
  if c.isDigit then some (c.toNat - 48) else none

/-- Digits-to-value for Python `int()`: nonempty all-digit strings only. -/
def digitsToNat (cs : List Char) : Option Nat :=
  match cs with
  | [] => none
  | _ =>
    cs.foldl
      (fun acc c =>
        match acc, digitVal c with
        | some a, some d => some (a * 10 + d)
        | _, _ => none)
      (some 0)

/-- Python `int(s)` for a string argument: strip whitespace, optional sign,
then decimal digits; anything else raises `ValueError` (`none`). -/
def pyInt (s : String) : Option Int :=
  let t := ((s.data.dropWhile isPySpace).reverse.dropWhile isPySpace).reverse
  match t with
  | '+' :: ds => (digitsToNat ds).map (fun n => (n : Int))
  | '-' :: ds => (digitsToNat ds).map (fun n => -(n : Int))
  | ds => (digitsToNat ds).map (fun n => (n : Int))

/-- Python truthiness test `if not x` for an optional string: `None` and the
empty string are falsy. -/
def optFalsy : Option String → Bool
  | none => true
  | some s => s == ""

/-- The value of `int(request....get("numOptions", 5))` when it does not
raise: the default `5` when the field is absent, else the parsed integer. -/
def parsedNumOptions : Option String → Option Int
  | none => some 5
  | some s => pyInt s

/-- An HTTP response: a JSON error body with a status code, or `send_file`
of the spreadsheet. -/
inductive HttpResp where
  | json (msg : String) (status : Nat)
  | file (download_name : String) (table : Table)

/-- What escapes a handler: a response, or an uncaught Python exception. -/
inductive Outcome where
  | ok (r : HttpResp)
  | exn (msg : String)

/-- Result of running a route: the outcome, how many generation-service
calls were made, and the final `/tmp` contents. -/
structure RouteResult where
  outcome : Outcome
  genCalls : Nat
  tmpFiles : List String

/-- The parts of a multipart request the PDF route reads. -/
structure PdfReq where
  pdfPresent : Bool
  filename : String
  apiKey : Option String
  numOptions : Option String

/-- The parts of a JSON body the text route reads. -/
structure TextReq where
  text : Option String
  apiKey : Option String
  numOptions : Option String

/-- `extract_text_from_pdf` (lines 43-51): every exception of the `try`
block is caught and becomes `None`. -/
def extract_text_from_pdf (fitzResult : Option String) : Option String :=
  match fitzResult with
  | none => none
  | some t => some t

/-- Lines 141-164 of the PDF route, after `numOptions` parsed successfully:
check the key, save the upload under `/tmp`, extract, remove the file, then
branch on the extracted text and the processing result. -/
def pdfRouteAfterParse (loads : String → Option JValue)
    (api : Nat → Nat → Option String) (fitzResult : Option String)
    (secure : String → String) (req : PdfReq) (fs0 : List String)
    (num_options : Int) : RouteResult :=
  if optFalsy req.apiKey then
    ⟨.ok (.json "API key is required." 400), 0, fs0⟩
  else
    let filepath := "/tmp/" ++ secure req.filename
    let fs1 := if filepath ∈ fs0 then fs0 else filepath :: fs0
    let full_text := extract_text_from_pdf fitzResult
    let fs2 := fs1.filter (fun q => q != filepath)
    match full_text with
    | none => ⟨.ok (.json "Could not extract text from PDF." 500), 0, fs2⟩
    | some t =>
      if t = "" then
        ⟨.ok (.json "Could not extract text from PDF." 500), 0, fs2⟩
      else
        match process_text_and_create_excel loads api t num_options with
        | .error e => ⟨.ok (.json e 500), totalCalls loads api t, fs2⟩
        | .ok tbl =>
          ⟨.ok (.file "generated_mcqs.xlsx" tbl), totalCalls loads api t, fs2⟩

/-- `generate_mcqs_from_pdf_route` (lines 132-164). The missing-file check
precedes `int(request.form.get("numOptions", 5))`, which in turn precedes
the API-key check; a malformed `numOptions` raises an uncaught
`ValueError`. -/
def generate_mcqs_from_pdf_route (loads : String → Option JValue)
    (api : Nat → Nat → Option String) (fitzResult : Option String)
    (secure : String → String) (req : PdfReq) (fs0 : List String) :
    RouteResult :=
  if req.pdfPresent = false then
    ⟨.ok (.json "No PDF file provided." 400), 0, fs0⟩
  else
    match req.numOptions with
    | none => pdfRouteAfterParse loads api fitzResult secure req fs0 5
    | some s =>
      match pyInt s with
      | none =>
        ⟨.exn ("ValueError: invalid literal for int() with base 10: " ++ s),
         0, fs0⟩
      | some n => pdfRouteAfterParse loads api fitzResult secure req fs0 n

/-- Lines 173-186 of the text route, after `numOptions` parsed successfully:
the combined missing-input check, then processing. -/
def textRouteAfterParse (loads : String → Option JValue)
    (api : Nat → Nat → Option String) (req : TextReq) (num_options : Int) :
    RouteResult :=
  if optFalsy req.text || optFalsy req.apiKey then
    ⟨.ok (.json "Text input and API key are required." 400), 0, []⟩
  else
    match process_text_and_create_excel loads api (req.text.getD "")
      num_options with
    | .error e =>
      ⟨.ok (.json e 500), totalCalls loads api (req.text.getD ""), []⟩
    | .ok tbl =>
      ⟨.ok (.file "generated_mcqs.xlsx" tbl),
       totalCalls loads api (req.text.getD ""), []⟩

/-- `generate_mcqs_from_text_route` (lines 166-186):
`int(data.get("numOptions", 5))` runs before the missing-input check, so a
malformed `numOptions` raises an uncaught `ValueError`. -/
def generate_mcqs_from_text_route (loads : String → Option JValue)
    (api : Nat → Nat → Option String) (req : TextReq) : RouteResult :=
  match req.numOptions with
  | none => textRouteAfterParse loads api req 5
  | some s =>
    match pyInt s with
    | none =>
      ⟨.exn ("ValueError: invalid literal for int() with base 10: " ++ s),
       0, []⟩
    | some n => textRouteAfterParse loads api req n

/-! ### Chunker lemmas -/

theorem chunk_size_eq : chunk_size = 3000 := rfl

theorem replicate_char_ne_nil (n : Nat) (hn : n ≠ 0) (a : Char) :
    List.replicate n a ≠ [] := by
  intro h
  have hlen := congrArg List.length h
  simp only [List.length_replicate, List.length_nil] at hlen
  exact hn hlen

theorem chunksGo_nil (fuel : Nat) : chunksGo fuel [] = [] := by
  cases fuel <;> rfl

theorem chunksGo_congr :
    ∀ (f g : Nat) (text : List Char),
      text.length ≤ f → text.length ≤ g → chunksGo f text = chunksGo g text := by
  intro f
  induction f with
  | zero =>
    intro g text hf _
    have htext : text = [] := List.length_eq_zero.mp (Nat.le_zero.mp hf)
    subst htext
    simp [chunksGo_nil]
  | succ f ih =>
    intro g text hf hg
    cases text with
    | nil => simp [chunksGo_nil]
    | cons c rest =>
      cases g with
      | zero => simp at hg
      | succ g =>
        simp only [chunksGo]
        refine congrArg _ (ih g _ ?_ ?_) <;>
          simp only [List.length_drop, List.length_cons, chunk_size_eq] at * <;>
          omega

theorem chunks_nil : chunks [] = [] := rfl

theorem chunks_cons_eq (c : Char) (rest : List Char) :
    chunks (c :: rest) =
      (c :: rest).take chunk_size :: chunks ((c :: rest).drop chunk_size) := by
  show chunksGo ((c :: rest).length) (c :: rest) = _
  simp only [List.length_cons, chunksGo]
  refine congrArg _ (chunksGo_congr _ _ _ ?_ le_rfl)
  simp only [List.length_drop, List.length_cons, chunk_size_eq]
  omega

theorem chunks_eq_of_ne (text : List Char) (h : text ≠ []) :
    chunks text = text.take chunk_size :: chunks (text.drop chunk_size) := by
  cases text with
  | nil => exact absurd rfl h
  | cons c rest => exact chunks_cons_eq c rest

theorem chunks_ne_arg (text : List Char) (h : chunks text ≠ []) : text ≠ [] := by
  intro he
  subst he
  exact h chunks_nil

theorem chunks_flatten_aux :
    ∀ (n : Nat) (text : List Char), text.length ≤ n →
      (chunks text).flatten = text := by
  intro n
  induction n with
  | zero =>
    intro text h
    have htext : text = [] := List.length_eq_zero.mp (Nat.le_zero.mp h)
    subst htext
    simp [chunks_nil]
  | succ n ih =>
    intro text h
    cases text with
    | nil => simp [chunks_nil]
    | cons c rest =>
      have hlen : ((c :: rest).drop chunk_size).length ≤ n := by
        simp only [List.length_drop, List.length_cons, chunk_size_eq]
        simp only [List.length_cons] at h
        omega
      rw [chunks_cons_eq, List.flatten_cons, ih _ hlen]
      exact List.take_append_drop _ _

theorem chunks_len_le_aux :
    ∀ (n : Nat) (text : List Char), text.length ≤ n →
      ∀ c ∈ chunks text, c.length ≤ chunk_size := by
  intro n
  induction n with
  | zero =>
    intro text h
    have htext : text = [] := List.length_eq_zero.mp (Nat.le_zero.mp h)
    subst htext
    simp [chunks_nil]
  | succ n ih =>
    intro text h c hc
    cases text with
    | nil => simp [chunks_nil] at hc
    | cons ch rest =>
      have hlen : ((ch :: rest).drop chunk_size).length ≤ n := by
        simp only [List.length_drop, List.length_cons, chunk_size_eq]
        simp only [List.length_cons] at h
        omega
      rw [chunks_cons_eq] at hc
      rcases List.mem_cons.mp hc with hc | hc
      · subst hc
        simp only [List.length_take]
        exact min_le_left _ _
      · exact ih _ hlen c hc

theorem chunks_dropLast_aux :
    ∀ (n : Nat) (text : List Char), text.length ≤ n →
      ∀ c ∈ (chunks text).dropLast, c.length = chunk_size := by
  intro n
  induction n with
  | zero =>
    intro text h
    have htext : text = [] := List.length_eq_zero.mp (Nat.le_zero.mp h)
    subst htext
    simp [chunks_nil]
  | succ n ih =>
    intro text h c hc
    cases text with
    | nil => simp [chunks_nil] at hc
    | cons ch rest =>
      have hlen : ((ch :: rest).drop chunk_size).length ≤ n := by
        simp only [List.length_drop, List.length_cons, chunk_size_eq]
        simp only [List.length_cons] at h
        omega
      rw [chunks_cons_eq] at hc
      by_cases htl : chunks ((ch :: rest).drop chunk_size) = []
      · rw [htl] at hc
        simp at hc
      · rw [List.dropLast_cons_of_ne_nil htl] at hc
        rcases List.mem_cons.mp hc with hc | hc
        · subst hc
          have hdrop : (ch :: rest).drop chunk_size ≠ [] := chunks_ne_arg _ htl
          have hsz : chunk_size < (ch :: rest).length := by
            by_contra hle
            exact hdrop (List.drop_eq_nil_of_le (by omega))
          simp only [List.length_take]
          omega
        · exact ih _ hlen c hc

theorem chunks_replicate_7000 :
    chunks (List.replicate 7000 'a') =
      [List.replicate 3000 'a', List.replicate 3000 'a',
       List.replicate 1000 'a'] := by
  rw [chunks_eq_of_ne _ (replicate_char_ne_nil 7000 (by norm_num) 'a')]
  rw [chunk_size_eq, List.take_replicate, List.drop_replicate]
  norm_num
  rw [chunks_eq_of_ne _ (replicate_char_ne_nil 4000 (by norm_num) 'a')]
  rw [chunk_size_eq, List.take_replicate, List.drop_replicate]
  norm_num
  rw [chunks_eq_of_ne _ (replicate_char_ne_nil 1000 (by norm_num) 'a')]
  rw [chunk_size_eq, List.take_replicate, List.drop_replicate]
  norm_num
  exact chunks_nil

/-- C2: for every text, the chunker (chunk size 3000) produces consecutive
non-overlapping substrings in order whose concatenation is the input text,
every chunk has length at most 3000, every chunk but the last has length
exactly 3000, and a 7000-character text yields chunks of lengths
3000, 3000, 1000 in that order. -/
theorem mcq_c2_chunker (text : List Char) :
    chunk_size = 3000 ∧
    (chunks text).flatten = text ∧
    (∀ c ∈ chunks text, c.length ≤ 3000) ∧
    (∀ c ∈ (chunks text).dropLast, c.length = 3000) ∧
    (chunks (List.replicate 7000 'a')).map List.length = [3000, 3000, 1000] := by
  refine ⟨rfl, chunks_flatten_aux text.length text le_rfl, ?_, ?_, ?_⟩
  · exact chunks_len_le_aux text.length text le_rfl
  · exact chunks_dropLast_aux text.length text le_rfl
  · rw [chunks_replicate_7000]
    simp only [List.map_cons, List.map_nil, List.length_replicate]

theorem chunks_replicate_3001 :
    chunks (List.replicate 3001 'a') =
      [List.replicate 3000 'a', List.replicate 1 'a'] := by
  rw [chunks_eq_of_ne _ (replicate_char_ne_nil 3001 (by norm_num) 'a')]
  rw [chunk_size_eq, List.take_replicate, List.drop_replicate]
  norm_num
  rfl

/-- Witness for C2 at concrete inputs: a one-character text is its own single
chunk, and the non-final chunk of a 3001-character text has length 3000. -/
theorem mcq_c2_chunker_witness :
    (chunks ['x']).flatten = ['x'] ∧
    (List.replicate 3000 'a').length ≤ 3000 ∧
    (List.replicate 3000 'a').length = 3000 := by
  refine ⟨(mcq_c2_chunker ['x']).2.1, ?_, ?_⟩
  · exact (mcq_c2_chunker (List.replicate 3001 'a')).2.2.1
      (List.replicate 3000 'a')
      (by rw [chunks_replicate_3001]; exact List.mem_cons_self _ _)
  · exact (mcq_c2_chunker (List.replicate 3001 'a')).2.2.2.1
      (List.replicate 3000 'a')
      (by rw [chunks_replicate_3001, List.dropLast_cons_of_ne_nil (by simp)]
          exact List.mem_cons_self _ _)

/-! ### Retry-loop lemmas -/

theorem retries_eq : retries = 3 := rfl

theorem attemptsFrom_le (loads : String → Option JValue)
    (resp : Nat → Option String) :
    ∀ (fuel i : Nat), attemptsFrom loads resp i fuel ≤ fuel := by
  intro fuel
  induction fuel with
  | zero => intro i; exact Nat.le_refl 0
  | succ fuel ih =>
    intro i
    cases h : attemptOutcome loads resp i with
    | some xs =>
      simp only [attemptsFrom, h]
      omega
    | none =>
      simp only [attemptsFrom, h]
      have := ih (i + 1)
      omega

theorem callFrom_all_fail (loads : String → Option JValue)
    (resp : Nat → Option String) :
    ∀ (fuel i : Nat),
      (∀ k, k < fuel → attemptOutcome loads resp (i + k) = none) →
      callFrom loads resp i fuel = [] := by
  intro fuel
  induction fuel with
  | zero => intro i _; rfl
  | succ fuel ih =>
    intro i h
    have h0 : attemptOutcome loads resp i = none := by
      have := h 0 (Nat.succ_pos _)
      simpa using this
    simp only [callFrom, h0]
    refine ih (i + 1) ?_
    intro k hk
    have hr := h (k + 1) (by omega)
    rw [show i + 1 + k = i + (k + 1) by omega]
    exact hr

theorem callFrom_cases (loads : String → Option JValue)
    (resp : Nat → Option String) :
    ∀ (fuel i : Nat),
      callFrom loads resp i fuel = [] ∨
      ∃ k, k < fuel ∧
        attemptOutcome loads resp (i + k) = some (callFrom loads resp i fuel) := by
  intro fuel
  induction fuel with
  | zero => intro i; exact Or.inl rfl
  | succ fuel ih =>
    intro i
    cases h : attemptOutcome loads resp i with
    | some xs =>
      refine Or.inr ⟨0, Nat.succ_pos _, ?_⟩
      simp [callFrom, h]
    | none =>
      rcases ih (i + 1) with hnil | ⟨k, hk, hout⟩
      · exact Or.inl (by simp [callFrom, h, hnil])
      · refine Or.inr ⟨k + 1, by omega, ?_⟩
        rw [show i + (k + 1) = i + 1 + k by omega]
        simpa [callFrom, h] using hout

theorem allData_eq_nil_iff (loads : String → Option JValue)
    (api : Nat → Nat → Option String) (t : String) :
    allData loads api t = [] ↔
      ∀ k, k < (chunks t.data).length → perChunkRecords loads api k = [] := by
  simp only [allData, List.flatten_eq_nil_iff]
  constructor
  · intro h k hk
    exact h _ (List.mem_map_of_mem _ (List.mem_range.mpr hk))
  · intro h x hx
    rcases List.mem_map.mp hx with ⟨k, hkr, rfl⟩
    exact h k (List.mem_range.mp hkr)

theorem buildExcel_ne_noDataMsg (n : Int) (data : List JValue) :
    buildExcel n data ≠ Except.error noDataMsg := by
  unfold buildExcel
  cases h : mkColumnOrder n with
  | none =>
    intro he
    have : excelErrMsg = noDataMsg := by
      simpa using he
    exact absurd this (by decide)
  | some o => intro he; exact Except.noConfusion he

theorem process_noData_iff (loads : String → Option JValue)
    (api : Nat → Nat → Option String) (t : String) (n : Int) :
    process_text_and_create_excel loads api t n = .error noDataMsg ↔
      allData loads api t = [] := by
  unfold process_text_and_create_excel
  by_cases h : (allData loads api t).isEmpty
  · simp [h, List.isEmpty_iff.mp h]
  · have hne : allData loads api t ≠ [] := by
      intro he
      exact h (by simp [he])
    simp only [h, if_false, Bool.false_eq_true]
    exact ⟨fun he => absurd he (buildExcel_ne_noDataMsg n _),
           fun he => absurd he hne⟩

/-- C3: each chunk's generation call is attempted at most 3 times; a chunk
whose 3 attempts all fail contributes the empty record list while every
other chunk's contribution is unchanged; and the pipeline fails with the
no-data error exactly when every chunk contributes zero records. -/
theorem mcq_c3_retry (loads : String → Option JValue)
    (resp : Nat → Option String) (api : Nat → Nat → Option String)
    (full_text : String) (j : Nat) (n : Int) :
    (retries = 3 ∧ attemptsUsed loads resp ≤ 3) ∧
    ((∀ i, i < 3 → attemptOutcome loads resp i = none) →
      call_gemini_api loads resp = []) ∧
    ((∀ i, i < 3 → attemptOutcome loads (api j) i = none) →
      allData loads api full_text =
        ((List.range (chunks full_text.data).length).map
          (fun k => if k = j then [] else perChunkRecords loads api k)).flatten) ∧
    (process_text_and_create_excel loads api full_text n = .error noDataMsg ↔
      ∀ k, k < (chunks full_text.data).length →
        perChunkRecords loads api k = []) := by
  refine ⟨⟨rfl, attemptsFrom_le loads resp retries 0⟩, ?_, ?_, ?_⟩
  · intro h
    refine callFrom_all_fail loads resp retries 0 ?_
    intro k hk
    simpa using h k hk
  · intro h
    unfold allData
    refine congrArg List.flatten (List.map_congr_left ?_)
    intro k hk
    by_cases hkj : k = j
    · subst hkj
      simp only [if_pos rfl]
      refine callFrom_all_fail loads (api k) retries 0 ?_
      intro i hi
      simpa using h i hi
    · simp [hkj]
  · rw [process_noData_iff, allData_eq_nil_iff]

/-- Witness for C3: with oracles where every attempt raises, the call
returns no records and a two-chunk pipeline fails with the no-data error. -/
theorem mcq_c3_retry_witness :
    call_gemini_api (fun _ => none) (fun _ => none) = [] ∧
    process_text_and_create_excel (fun _ => none) (fun _ _ => none) "hi" 5 =
      .error noDataMsg := by
  refine ⟨(mcq_c3_retry (fun _ => none) (fun _ => none) (fun _ _ => none)
    "hi" 0 5).2.1 ?_, (mcq_c3_retry (fun _ => none) (fun _ => none)
    (fun _ _ => none) "hi" 0 5).2.2.2.mpr ?_⟩
  · intro i _
    rfl
  · intro k _
    rfl

/-- C10: the per-chunk generation function is total at its interface: for
every oracle behaviour it returns a list, which is either empty (every
failure, including the last attempt, is caught) or the parsed value of some
successful attempt within the retry bound. -/
theorem mcq_c10_total (loads : String → Option JValue)
    (resp : Nat → Option String) :
    call_gemini_api loads resp = [] ∨
    ∃ i, i < retries ∧
      attemptOutcome loads resp i = some (call_gemini_api loads resp) := by
  rcases callFrom_cases loads resp retries 0 with h | ⟨k, hk, hout⟩
  · exact Or.inl h
  · refine Or.inr ⟨k, hk, ?_⟩
    simpa using hout

/-! ### NoData aggregation (C4) -/

theorem pdfAfterParse_nodata (loads : String → Option JValue)
    (api : Nat → Nat → Option String) (secure : String → String)
    (req : PdfReq) (fs0 : List String) (t : String) (n : Int)
    (hk : optFalsy req.apiKey = false) (ht : t ≠ "")
    (hproc : process_text_and_create_excel loads api t n = .error noDataMsg) :
    (pdfRouteAfterParse loads api (some t) secure req fs0 n).outcome =
      .ok (.json noDataMsg 500) := by
  unfold pdfRouteAfterParse
  simp only [hk, Bool.false_eq_true, if_false, extract_text_from_pdf,
    if_neg ht, hproc]

/-- C4: whenever the concatenation of all per-chunk record lists is empty,
the pipeline returns the no-data error, and the PDF route renders it as a
500 JSON error response (not a file). -/
theorem mcq_c4_nodata (loads : String → Option JValue)
    (api : Nat → Nat → Option String) (secure : String → String)
    (req : PdfReq) (fs0 : List String) (t : String) (n : Int) :
    (allData loads api t = [] →
      process_text_and_create_excel loads api t n = .error noDataMsg) ∧
    (req.pdfPresent = true → parsedNumOptions req.numOptions = some n →
      optFalsy req.apiKey = false → t ≠ "" → allData loads api t = [] →
      (generate_mcqs_from_pdf_route loads api (some t) secure req fs0).outcome =
        .ok (.json noDataMsg 500)) := by
  constructor
  · intro h
    exact (process_noData_iff loads api t n).mpr h
  · intro hp hn hk ht hd
    have hproc : process_text_and_create_excel loads api t n =
        .error noDataMsg := (process_noData_iff loads api t n).mpr hd
    unfold generate_mcqs_from_pdf_route
    simp only [hp, Bool.true_eq_false, if_false]
    cases hno : req.numOptions with
    | none =>
      simp only [parsedNumOptions, hno, Option.some.injEq] at hn
      subst hn
      exact pdfAfterParse_nodata loads api secure req fs0 t 5 hk ht hproc
    | some s =>
      simp only [parsedNumOptions, hno] at hn
      simp only [hn]
      exact pdfAfterParse_nodata loads api secure req fs0 t n hk ht hproc

/-- Witness for C4: with oracles where every service attempt raises, the
pipeline on the text "hi" fails with the no-data message and the route
answers with the 500 JSON error. -/
theorem mcq_c4_nodata_witness :
    process_text_and_create_excel (fun _ => none) (fun _ _ => none) "hi" 5 =
      .error noDataMsg ∧
    (generate_mcqs_from_pdf_route (fun _ => none) (fun _ _ => none)
      (some "hi") id ⟨true, "f.pdf", some "k", none⟩ []).outcome =
      .ok (.json noDataMsg 500) := by
  refine ⟨(mcq_c4_nodata (fun _ => none) (fun _ _ => none) id
      ⟨true, "f.pdf", some "k", none⟩ [] "hi" 5).1 rfl,
    (mcq_c4_nodata (fun _ => none) (fun _ _ => none) id
      ⟨true, "f.pdf", some "k", none⟩ [] "hi" 5).2 rfl rfl rfl
      (by decide) rfl⟩

/-! ### Response parsing (C6) -/

/-- The string handed to `json.loads` on line 70: the regex group when the
fenced-array pattern matches, else the entire (stripped) raw output. -/
def jsonStrChosen (raw : String) : String :=
  match searchFence (pyStrip raw).data with
  | some g => String.mk g
  | none => pyStrip raw

theorem listFromJson_eq_nil (v : JValue) (h : ∀ xs, v ≠ JValue.jarr xs) :
    listFromJson v = [] := by
  cases v with
  | jarr xs => exact absurd rfl (h xs)
  | jnull => rfl
  | jbool b => rfl
  | jnum n => rfl
  | jstr s => rfl
  | jobj fields => rfl

theorem attemptResult_eq (loads : String → Option JValue) (raw : String) :
    attemptResult loads raw = (loads (jsonStrChosen raw)).map listFromJson := by
  unfold attemptResult jsonStrChosen
  cases hm : searchFence (pyStrip raw).data with
  | none =>
    cases hl : loads (pyStrip raw) <;> simp [hm, hl]
  | some g =>
    cases hl : loads (String.mk g) <;> simp [hm, hl]

/-- C6: the parser looks for a fenced ```json array first and hands its
group to `json.loads`; with no fence it hands over the whole stripped raw
output; and a parsed value that is not a JSON array yields the empty record
list (a success, not an error) for that attempt. -/
theorem mcq_c6_parse (loads : String → Option JValue) (raw : String) :
    (∀ g, searchFence (pyStrip raw).data = some g →
      jsonStrChosen raw = String.mk g) ∧
    (searchFence (pyStrip raw).data = none →
      jsonStrChosen raw = pyStrip raw) ∧
    attemptResult loads raw = (loads (jsonStrChosen raw)).map listFromJson ∧
    (∀ v, loads (jsonStrChosen raw) = some v → (∀ xs, v ≠ JValue.jarr xs) →
      attemptResult loads raw = some []) := by
  refine ⟨?_, ?_, attemptResult_eq loads raw, ?_⟩
  · intro g hg
    unfold jsonStrChosen
    rw [hg]
  · intro hg
    unfold jsonStrChosen
    rw [hg]
  · intro v hv hnarr
    rw [attemptResult_eq, hv]
    simp [listFromJson_eq_nil v hnarr]

/-- A concrete `json.loads` oracle for the C6 witness. -/
def loadsW : String → Option JValue := fun s =>
  if s = "[1, 2]" then some (.jarr [.jnum 1, .jnum 2])
  else if s = "\x7b\x7d" then some (.jobj [])
  else none

/-- Witness for C6: a fenced response is parsed from its group (the fence
and surrounding whitespace are stripped away), and a bare JSON object
response is coerced to zero records rather than an error. -/
theorem mcq_c6_parse_witness :
    attemptResult loadsW "```json\n[1, 2]\n```" =
      some [JValue.jnum 1, JValue.jnum 2] ∧
    attemptResult loadsW "\x7b\x7d" = some [] := by
  constructor
  · exact ((mcq_c6_parse loadsW "```json\n[1, 2]\n```").2.2.1).trans (by rfl)
  · exact (mcq_c6_parse loadsW "\x7b\x7d").2.2.2 (.jobj []) rfl
      (fun xs h => JValue.noConfusion h)

/-! ### Column-order behaviour at numOptions = 4 and 5 (C1, C7) -/

/-- A 4-option record with exactly the keys the prompt requests. -/
def sampleRecord4 : JValue :=
  .jobj [("question", .jstr "q"), ("option_a", .jstr "a"),
         ("option_b", .jstr "b"), ("option_c", .jstr "c"),
         ("option_d", .jstr "d"), ("correct_answer", .jstr "A"),
         ("explanation", .jstr "x"), ("topic", .jstr "t"),
         ("chapter", .jstr "ch"), ("subject", .jstr "s")]

/-- A `json.loads` oracle returning one 4-option record for any input. -/
def sampleLoads4 : String → Option JValue := fun _ => some (.jarr [sampleRecord4])

/-- A service oracle whose first attempt always answers. -/
def sampleApi : Nat → Nat → Option String := fun _ _ => some "ok"

/-- C1 (divergence at the failing input): with numOptions = 4 the code
reaches `column_order.remove("option_e")` on a list that never contained
`"option_e"`, so CPython raises `ValueError`; the `except` converts every
4-option request that produced records into the 500 serialization error,
and no output table is ever built. -/
theorem mcq_c1_option4_bug :
    mkColumnOrder 4 = none ∧
    buildExcel 4 [sampleRecord4] = .error excelErrMsg ∧
    process_text_and_create_excel sampleLoads4 sampleApi "hello" 4 =
      .error excelErrMsg := by
  refine ⟨rfl, rfl, ?_⟩
  rfl

/-- A 5-option record with exactly the keys the prompt requests. -/
def sampleRecord5 (q : String) : JValue :=
  .jobj [("question", .jstr q), ("option_a", .jstr "a"),
         ("option_b", .jstr "b"), ("option_c", .jstr "c"),
         ("option_d", .jstr "d"), ("option_e", .jstr "e"),
         ("correct_answer", .jstr "A"), ("explanation", .jstr "x"),
         ("topic", .jstr "t"), ("chapter", .jstr "ch"), ("subject", .jstr "s")]

/-- Five 5-option records: the 3 the first chunk yields then the 2 of the
second chunk. -/
def sampleData5 : List JValue :=
  [sampleRecord5 "q1", sampleRecord5 "q2", sampleRecord5 "q3",
   sampleRecord5 "q4", sampleRecord5 "q5"]

/-- A `json.loads` oracle: the first chunk's response parses to 3 records,
the second chunk's response to 2 records. -/
def loads5 : String → Option JValue := fun s =>
  if s = "R3" then
    some (.jarr [sampleRecord5 "q1", sampleRecord5 "q2", sampleRecord5 "q3"])
  else if s = "R2" then
    some (.jarr [sampleRecord5 "q4", sampleRecord5 "q5"])
  else none

/-- A service oracle answering `"R3"` for chunk 0 and `"R2"` afterwards. -/
def api5 : Nat → Nat → Option String := fun k _ =>
  if k = 0 then some "R3" else some "R2"

/-- A 3001-character text, which the chunker splits into two chunks. -/
def bigText : String := String.mk (List.replicate 3001 'a')

theorem allData_bigText : allData loads5 api5 bigText = sampleData5 := by
  unfold allData
  have hdata : bigText.data = List.replicate 3001 'a' := rfl
  rw [hdata, chunks_replicate_3001]
  rfl

/-- C7 (divergence at the failing input): on a two-chunk request yielding
3 then 2 records with numOptions = 5, the records are concatenated in chunk
order and numbered 1..5 by the prepended `S.No` column, but
`column_order.insert(4, "option_e")` places `option_e` at index 4 — between
`option_c` and `option_d` — not between `option_d` and `correct_answer` as
specified, so the produced header is
S.No, question, option_a, option_b, option_c, option_e, option_d,
correct_answer, explanation, topic, chapter, subject. -/
theorem mcq_c7_header_bug :
    mkColumnOrder 5 = some ["question", "option_a", "option_b", "option_c",
      "option_e", "option_d", "correct_answer", "explanation", "topic",
      "chapter", "subject"] ∧
    allData loads5 api5 bigText = sampleData5 ∧
    (process_text_and_create_excel loads5 api5 bigText 5).map Table.header =
      .ok ["S.No", "question", "option_a", "option_b", "option_c",
           "option_e", "option_d", "correct_answer", "explanation", "topic",
           "chapter", "subject"] ∧
    (process_text_and_create_excel loads5 api5 bigText 5).map
        (fun t => t.rows.map List.head?) =
      .ok [some (Cell.num 1), some (Cell.num 2), some (Cell.num 3),
           some (Cell.num 4), some (Cell.num 5)] := by
  have hproc : process_text_and_create_excel loads5 api5 bigText 5 =
      buildExcel 5 sampleData5 := by
    unfold process_text_and_create_excel
    rw [allData_bigText]
    rfl
  refine ⟨rfl, allData_bigText, ?_, ?_⟩
  · rw [hproc]
    rfl
  · rw [hproc]
    rfl

/-! ### Route reductions -/

theorem pdfRoute_parsed (loads : String → Option JValue)
    (api : Nat → Nat → Option String) (fitzResult : Option String)
    (secure : String → String) (req : PdfReq) (fs0 : List String) (n : Int)
    (hp : req.pdfPresent = true)
    (hn : parsedNumOptions req.numOptions = some n) :
    generate_mcqs_from_pdf_route loads api fitzResult secure req fs0 =
      pdfRouteAfterParse loads api fitzResult secure req fs0 n := by
  unfold generate_mcqs_from_pdf_route
  simp only [hp, Bool.true_eq_false, if_false]
  cases hno : req.numOptions with
  | none =>
    simp only [parsedNumOptions, hno, Option.some.injEq] at hn
    subst hn
    rfl
  | some s =>
    simp only [parsedNumOptions, hno] at hn
    simp only [hn]

theorem textRoute_parsed (loads : String → Option JValue)
    (api : Nat → Nat → Option String) (req : TextReq) (n : Int)
    (hn : parsedNumOptions req.numOptions = some n) :
    generate_mcqs_from_text_route loads api req =
      textRouteAfterParse loads api req n := by
  unfold generate_mcqs_from_text_route
  cases hno : req.numOptions with
  | none =>
    simp only [parsedNumOptions, hno, Option.some.injEq] at hn
    subst hn
    rfl
  | some s =>
    simp only [parsedNumOptions, hno] at hn
    simp only [hn]

/-! ### Temp-file cleanup (C9) -/

theorem pdfAfterParse_tmpFiles (loads : String → Option JValue)
    (api : Nat → Nat → Option String) (fitzResult : Option String)
    (secure : String → String) (req : PdfReq) (fs0 : List String) (n : Int)
    (hk : optFalsy req.apiKey = false) :
    (pdfRouteAfterParse loads api fitzResult secure req fs0 n).tmpFiles =
      (if ("/tmp/" ++ secure req.filename) ∈ fs0 then fs0
       else ("/tmp/" ++ secure req.filename) :: fs0).filter
        (fun q => q != ("/tmp/" ++ secure req.filename)) := by
  unfold pdfRouteAfterParse
  simp only [hk, Bool.false_eq_true, if_false, extract_text_from_pdf]
  cases fitzResult with
  | none => rfl
  | some t =>
    by_cases ht : t = ""
    · simp only [if_pos ht]
    · simp only [if_neg ht]
      cases process_text_and_create_excel loads api t n <;> rfl

/-- C9: for every PDF-route request that reaches the save of the uploaded
document (file present, numOptions parses, API key nonempty), the `/tmp`
file is gone from the final filesystem state on every path — fitz failure,
empty extraction, processing error and success alike. -/
theorem mcq_c9_cleanup (loads : String → Option JValue)
    (api : Nat → Nat → Option String) (fitzResult : Option String)
    (secure : String → String) (req : PdfReq) (fs0 : List String)
    (hp : req.pdfPresent = true)
    (hn : (parsedNumOptions req.numOptions).isSome = true)
    (hk : optFalsy req.apiKey = false) :
    ("/tmp/" ++ secure req.filename) ∉
      (generate_mcqs_from_pdf_route loads api fitzResult secure req
        fs0).tmpFiles := by
  obtain ⟨n, hn'⟩ := Option.isSome_iff_exists.mp hn
  rw [pdfRoute_parsed loads api fitzResult secure req fs0 n hp hn',
      pdfAfterParse_tmpFiles loads api fitzResult secure req fs0 n hk]
  intro hmem
  simp [List.mem_filter] at hmem

/-- Witness for C9: a concrete request whose upload is saved and whose
extraction succeeds leaves nothing under `/tmp`. -/
theorem mcq_c9_cleanup_witness :
    ("/tmp/" ++ id "f.pdf") ∉
      (generate_mcqs_from_pdf_route (fun _ => none) (fun _ _ => none)
        (some "hi") id ⟨true, "f.pdf", some "k", none⟩ []).tmpFiles :=
  mcq_c9_cleanup (fun _ => none) (fun _ _ => none) (some "hi") id
    ⟨true, "f.pdf", some "k", none⟩ [] rfl rfl rfl

/-! ### Missing input / missing key (C5) -/

/-- C5 counterexample: a text-route request with neither text nor apiKey but
a malformed numOptions field does not get the 400 response — the
`int(data.get("numOptions", 5))` on line 171 runs before the check on line
173 and raises an uncaught ValueError. -/
theorem mcq_c5_counterexample :
    (generate_mcqs_from_text_route (fun _ => none) (fun _ _ => none)
      ⟨none, none, some "abc"⟩).outcome =
      .exn ("ValueError: invalid literal for int() with base 10: " ++ "abc") := by
  rfl

/-- C5 as amended: a request without the pdf file gets the 400
missing-file response with no generation call regardless of numOptions
(that check precedes the parse); a pdf request with an empty key gets the
400 missing-key response with no call once numOptions parses; a text-route
request with no text and no key gets the combined 400 with no call provided
numOptions (when present) parses as an integer. -/
theorem mcq_c5_amended (loads : String → Option JValue)
    (api : Nat → Nat → Option String) (fitzResult : Option String)
    (secure : String → String) (preq : PdfReq) (treq : TextReq)
    (fs0 : List String) :
    (preq.pdfPresent = false →
      generate_mcqs_from_pdf_route loads api fitzResult secure preq fs0 =
        ⟨.ok (.json "No PDF file provided." 400), 0, fs0⟩) ∧
    (preq.pdfPresent = true →
      (parsedNumOptions preq.numOptions).isSome = true →
      optFalsy preq.apiKey = true →
      generate_mcqs_from_pdf_route loads api fitzResult secure preq fs0 =
        ⟨.ok (.json "API key is required." 400), 0, fs0⟩) ∧
    (optFalsy treq.text = true →
      (parsedNumOptions treq.numOptions).isSome = true →
      generate_mcqs_from_text_route loads api treq =
        ⟨.ok (.json "Text input and API key are required." 400), 0, []⟩) := by
  refine ⟨?_, ?_, ?_⟩
  · intro hp
    unfold generate_mcqs_from_pdf_route
    simp [hp]
  · intro hp hn hk
    obtain ⟨n, hn'⟩ := Option.isSome_iff_exists.mp hn
    rw [pdfRoute_parsed loads api fitzResult secure preq fs0 n hp hn']
    unfold pdfRouteAfterParse
    simp [hk]
  · intro htext hn
    obtain ⟨n, hn'⟩ := Option.isSome_iff_exists.mp hn
    rw [textRoute_parsed loads api treq n hn']
    unfold textRouteAfterParse
    simp [htext]

/-- Witness for C5 (amended) at concrete requests. -/
theorem mcq_c5_amended_witness :
    generate_mcqs_from_pdf_route (fun _ => none) (fun _ _ => none) none id
      ⟨false, "", none, none⟩ [] =
      ⟨.ok (.json "No PDF file provided." 400), 0, []⟩ ∧
    generate_mcqs_from_pdf_route (fun _ => none) (fun _ _ => none) none id
      ⟨true, "f.pdf", none, none⟩ [] =
      ⟨.ok (.json "API key is required." 400), 0, []⟩ ∧
    generate_mcqs_from_text_route (fun _ => none) (fun _ _ => none)
      ⟨none, none, none⟩ =
      ⟨.ok (.json "Text input and API key are required." 400), 0, []⟩ := by
  refine ⟨?_, ?_, ?_⟩
  · exact (mcq_c5_amended (fun _ => none) (fun _ _ => none) none id
      ⟨false, "", none, none⟩ ⟨none, none, none⟩ []).1 rfl
  · exact (mcq_c5_amended (fun _ => none) (fun _ _ => none) none id
      ⟨true, "f.pdf", none, none⟩ ⟨none, none, none⟩ []).2.1 rfl rfl rfl
  · exact (mcq_c5_amended (fun _ => none) (fun _ _ => none) none id
      ⟨false, "", none, none⟩ ⟨none, none, none⟩ []).2.2 rfl rfl

/-! ### Error rendering in the handlers (C8)

The request models above cover the handlers' operative protocol: a
multipart form whose upload saves successfully under `/tmp`, and a JSON
body that is an object with optional string-valued fields. Inputs outside
that envelope raise further uncaught errors in the real program that are
not modelled here — an upload whose secured filename is empty makes
`pdf_file.save` on line 146 raise `IsADirectoryError`, a JSON body that is
`null` or an array makes `data.get` on line 169 raise `AttributeError`,
and the spreadsheet writer's own exceptions inside the line 99-123 `try`
produce 500 bodies with other messages. The theorems below therefore
assert, path by path, what the handlers do on their explicit error paths,
and that a malformed `numOptions` escapes; they do not assert that it is
the only escaping input. -/

/-- Every branch of `pdfRouteAfterParse` that returns a processing error
renders it as a 500 JSON response whose body is exactly the error string
produced (lines 156-157). -/
theorem pdfAfterParse_error (loads : String → Option JValue)
    (api : Nat → Nat → Option String) (secure : String → String)
    (req : PdfReq) (fs0 : List String) (t : String) (n : Int) (e : String)
    (hk : optFalsy req.apiKey = false) (ht : t ≠ "")
    (hproc : process_text_and_create_excel loads api t n = .error e) :
    (pdfRouteAfterParse loads api (some t) secure req fs0 n).outcome =
      .ok (.json e 500) := by
  unfold pdfRouteAfterParse
  simp only [hk, Bool.false_eq_true, if_false, extract_text_from_pdf,
    if_neg ht, hproc]

/-- The extraction-failure branches of `pdfRouteAfterParse` (a raised
`fitz` call, or empty extracted text) render the fixed 500 message of
line 152. -/
theorem pdfAfterParse_extractfail (loads : String → Option JValue)
    (api : Nat → Nat → Option String) (fitzResult : Option String)
    (secure : String → String) (req : PdfReq) (fs0 : List String) (n : Int)
    (hk : optFalsy req.apiKey = false)
    (hf : fitzResult = none ∨ fitzResult = some "") :
    (pdfRouteAfterParse loads api fitzResult secure req fs0 n).outcome =
      .ok (.json "Could not extract text from PDF." 500) := by
  unfold pdfRouteAfterParse
  rcases hf with hf | hf <;> subst hf <;>
    simp [hk, extract_text_from_pdf]

/-- C8 counterexample: a PDF-route request with the file and key present but
numOptions "x5" escapes the handler as an uncaught ValueError rather than
any HTTP response. -/
theorem mcq_c8_counterexample :
    (generate_mcqs_from_pdf_route (fun _ => none) (fun _ _ => none) none id
      ⟨true, "f.pdf", some "k", some "x5"⟩ []).outcome =
      .exn ("ValueError: invalid literal for int() with base 10: " ++ "x5") := by
  rfl

/-- C8 as amended: each error the handlers explicitly detect is rendered as
an HTTP response carrying its descriptive message — the 400s for a missing
file, key, or text input, the fixed 500 for failed or empty extraction,
and a 500 whose JSON body is exactly the processing-stage error string —
but the original claim's "no input causes an unhandled exception" is
false: a malformed or non-integer numOptions field escapes either handler
as an uncaught ValueError, since the `int(...)` calls on lines 139 and 171
run before validation and outside any try block. (The theorem exhibits
that escape; it does not claim it is the only one — inputs outside the
modelled protocol, such as an empty secured upload filename at save or a
non-object JSON body, also raise.) -/
theorem mcq_c8_amended (loads : String → Option JValue)
    (api : Nat → Nat → Option String) (fitzResult : Option String)
    (secure : String → String) (preq : PdfReq) (treq : TextReq)
    (fs0 : List String) :
    (preq.pdfPresent = false →
      (generate_mcqs_from_pdf_route loads api fitzResult secure preq
        fs0).outcome = .ok (.json "No PDF file provided." 400)) ∧
    (∀ n, preq.pdfPresent = true →
      parsedNumOptions preq.numOptions = some n →
      optFalsy preq.apiKey = true →
      (generate_mcqs_from_pdf_route loads api fitzResult secure preq
        fs0).outcome = .ok (.json "API key is required." 400)) ∧
    (∀ n, preq.pdfPresent = true →
      parsedNumOptions preq.numOptions = some n →
      optFalsy preq.apiKey = false →
      (fitzResult = none ∨ fitzResult = some "") →
      (generate_mcqs_from_pdf_route loads api fitzResult secure preq
        fs0).outcome = .ok (.json "Could not extract text from PDF." 500)) ∧
    (∀ n t e, preq.pdfPresent = true →
      parsedNumOptions preq.numOptions = some n →
      optFalsy preq.apiKey = false → fitzResult = some t → t ≠ "" →
      process_text_and_create_excel loads api t n = .error e →
      (generate_mcqs_from_pdf_route loads api fitzResult secure preq
        fs0).outcome = .ok (.json e 500)) ∧
    (∀ n, (optFalsy treq.text || optFalsy treq.apiKey) = true →
      parsedNumOptions treq.numOptions = some n →
      (generate_mcqs_from_text_route loads api treq).outcome =
        .ok (.json "Text input and API key are required." 400)) ∧
    (∀ n e, (optFalsy treq.text || optFalsy treq.apiKey) = false →
      parsedNumOptions treq.numOptions = some n →
      process_text_and_create_excel loads api (treq.text.getD "") n =
        .error e →
      (generate_mcqs_from_text_route loads api treq).outcome =
        .ok (.json e 500)) ∧
    (∀ s, preq.pdfPresent = true → preq.numOptions = some s →
      pyInt s = none →
      (generate_mcqs_from_pdf_route loads api fitzResult secure preq
        fs0).outcome =
        .exn ("ValueError: invalid literal for int() with base 10: " ++ s)) ∧
    (∀ s, treq.numOptions = some s → pyInt s = none →
      (generate_mcqs_from_text_route loads api treq).outcome =
        .exn ("ValueError: invalid literal for int() with base 10: " ++ s)) := by
  refine ⟨?_, ?_, ?_, ?_, ?_, ?_, ?_, ?_⟩
  · intro hp
    unfold generate_mcqs_from_pdf_route
    simp [hp]
  · intro n hp hn hk
    rw [pdfRoute_parsed loads api fitzResult secure preq fs0 n hp hn]
    unfold pdfRouteAfterParse
    simp [hk]
  · intro n hp hn hk hf
    rw [pdfRoute_parsed loads api fitzResult secure preq fs0 n hp hn]
    exact pdfAfterParse_extractfail loads api fitzResult secure preq fs0 n
      hk hf
  · intro n t e hp hn hk hft ht hproc
    rw [pdfRoute_parsed loads api fitzResult secure preq fs0 n hp hn, hft]
    exact pdfAfterParse_error loads api secure preq fs0 t n e hk ht hproc
  · intro n hcond hn
    rw [textRoute_parsed loads api treq n hn]
    unfold textRouteAfterParse
    simp [hcond]
  · intro n e hcond hn hproc
    rw [textRoute_parsed loads api treq n hn]
    unfold textRouteAfterParse
    simp only [hcond, Bool.false_eq_true, if_false, hproc]
  · intro s hp hno hpi
    unfold generate_mcqs_from_pdf_route
    simp only [hp, Bool.true_eq_false, if_false, hno, hpi]
  · intro s hno hpi
    unfold generate_mcqs_from_text_route
    simp only [hno, hpi]

/-- Witness for C8 (amended) at concrete requests: a processing failure is
rendered as a 500 JSON body carrying the processing error string, and a
malformed numOptions escapes the text handler as the uncaught ValueError. -/
theorem mcq_c8_amended_witness :
    (generate_mcqs_from_pdf_route (fun _ => none) (fun _ _ => none)
      (some "hi") id ⟨true, "f.pdf", some "k", none⟩ []).outcome =
      .ok (.json noDataMsg 500) ∧
    (generate_mcqs_from_text_route (fun _ => none) (fun _ _ => none)
      ⟨none, none, some "zz"⟩).outcome =
      .exn ("ValueError: invalid literal for int() with base 10: " ++ "zz") := by
  constructor
  · exact (mcq_c8_amended (fun _ => none) (fun _ _ => none) (some "hi") id
      ⟨true, "f.pdf", some "k", none⟩ ⟨none, none, some "zz"⟩
      []).2.2.2.1 5 "hi" noDataMsg rfl rfl rfl rfl (by decide) rfl
  · exact (mcq_c8_amended (fun _ => none) (fun _ _ => none) (some "hi") id
      ⟨true, "f.pdf", some "k", none⟩ ⟨none, none, some "zz"⟩
      []).2.2.2.2.2.2.2 "zz" rfl rfl
